import Mathlib

/-!
Verification of the orientation-aware trim-and-transcode pipeline of
`src/app.py` (video2gif). The Python source is shallowly embedded:

* `vf_filter`, `ffmpeg_cmd`, `ffmpeg_subclip_rotate` embed the function
  `ffmpeg_subclip_rotate` (lines 8-43): the rotation-to-filter resolution
  and the argument list of the single external encode invocation.
* `get_video_metadata` embeds the prober (lines 46-91); the external
  `ffprobe` result is a parameter (exit code plus parsed-JSON payload,
  `none` standing for unparsable output).
* `mainTrace` embeds the orchestration in `main` (lines 94-243) as a pure
  function from the session's inputs to the list of observable events
  (external process launches, user-facing errors, artifact exposure and
  file removals); an uncaught Python exception truncates the trace after
  a `raised` marker.

Floats of the source (sizes, durations, slider values) are modelled as ℚ;
machine-level float rounding is irrelevant to every property proved here.
-/

namespace Video2Gif

/-- The geometric meaning of an orientation-correcting transform:
identity, rotate 90° counter-clockwise, rotate 180° (flip both axes),
or rotate 90° clockwise. -/
inductive Transform
  | identity
  | rot90ccw
  | rot180
  | rot90cw
deriving DecidableEq

/-- A transform swaps the output width/height exactly when it is a
quarter-turn rotation. -/
def Transform.swapsDimensions : Transform → Bool
  | .rot90ccw => true
  | .rot90cw => true
  | _ => false

/-- Embedding of the rotation-hint resolution in `ffmpeg_subclip_rotate`
(src/app.py lines 19-25): the optional ffmpeg video-filter string chosen
for a rotation hint (`None` = no `-vf` argument = identity). -/
def vf_filter (rotation : ℤ) : Option String :=
  if rotation = 90 then some "transpose=2"
  else if rotation = 180 then some "hflip,vflip"
  else if rotation = 270 then some "transpose=1"
  else none

/-- Documented semantics of the ffmpeg filter expressions occurring in the
source: `transpose=1` rotates 90° clockwise, `transpose=2` rotates 90°
counter-clockwise, and `hflip,vflip` flips both axes (a 180° rotation);
any other string is not assigned a meaning here. -/
def ffmpegFilterMeaning (s : String) : Option Transform :=
  if s = "transpose=1" then some .rot90cw
  else if s = "transpose=2" then some .rot90ccw
  else if s = "hflip,vflip" then some .rot180
  else none

/-- The geometric transform effectively applied for a rotation hint: the
meaning of the chosen filter, the absence of a filter being the identity. -/
def resolvedTransform (rotation : ℤ) : Option Transform :=
  match vf_filter rotation with
  | none => some .identity
  | some s => ffmpegFilterMeaning s

/-- Abstraction of Python `str()` applied to the numeric trim bounds when
the command line is assembled; only the injection of the value into the
argument list matters to the properties below, not the decimal rendering. -/
def pyStr (q : ℚ) : String := toString q

/-- Embedding of the command list built by `ffmpeg_subclip_rotate`
(src/app.py lines 27-42). -/
def ffmpeg_cmd (input_path output_path : String) (start endT : ℚ)
    (rotation : ℤ) : List String :=
  ["ffmpeg", "-y", "-i", input_path, "-ss", pyStr start, "-to", pyStr endT]
    ++ (match vf_filter rotation with
        | some f => ["-vf", f]
        | none => [])
    ++ ["-c:v", "libx264", "-c:a", "aac", "-metadata", "rotate=0",
        "-map_metadata", "-1", output_path]

/-- Embedding of `ffmpeg_subclip_rotate` (src/app.py lines 8-43) as the
list of external commands it launches: exactly one `subprocess.run`. -/
def ffmpeg_subclip_rotate (input_path output_path : String) (start endT : ℚ)
    (rotation : ℤ) : List (List String) :=
  [ffmpeg_cmd input_path output_path start endT rotation]

/-- C1: For each of the four canonical rotation hints the resolver produces
exactly the transform of the §4.2 table: 0 ↦ identity (no video filter, no
dimension swap); 90 ↦ rotate 90° counter-clockwise (dimension swap);
180 ↦ flip of both axes (no swap); 270 ↦ rotate 90° clockwise (swap). -/
theorem c1_rotation_mapping :
    vf_filter 0 = none ∧
    resolvedTransform 0 = some Transform.identity ∧
    Transform.identity.swapsDimensions = false ∧
    resolvedTransform 90 = some Transform.rot90ccw ∧
    Transform.rot90ccw.swapsDimensions = true ∧
    resolvedTransform 180 = some Transform.rot180 ∧
    Transform.rot180.swapsDimensions = false ∧
    resolvedTransform 270 = some Transform.rot90cw ∧
    Transform.rot90cw.swapsDimensions = true := by
  refine ⟨rfl, rfl, rfl, ?_, rfl, ?_, rfl, ?_, rfl⟩ <;> rfl

/-- C2: Every invocation of the trim-transcode step launches exactly one
external encode process, whose argument list (a) selects the range with
absolute `-ss start -to end` semantics, (b) carries the single `-vf` filter
expression exactly when the resolved transform is non-identity (for the
identity the command is the explicit filter-free list), (c) writes an
explicit `rotate=0` orientation tag, and (d) strips all inherited metadata
via `-map_metadata -1`. -/
theorem c2_single_encode_command (i o : String) (s e : ℚ) (r : ℤ) :
    (ffmpeg_subclip_rotate i o s e r).length = 1 ∧
    ∀ cmd, cmd ∈ ffmpeg_subclip_rotate i o s e r →
      List.IsInfix ["-ss", pyStr s, "-to", pyStr e] cmd ∧
      (∀ f, vf_filter r = some f → List.IsInfix ["-vf", f] cmd) ∧
      (vf_filter r = none →
        cmd = ["ffmpeg", "-y", "-i", i, "-ss", pyStr s, "-to", pyStr e,
               "-c:v", "libx264", "-c:a", "aac", "-metadata", "rotate=0",
               "-map_metadata", "-1", o]) ∧
      List.IsInfix ["-metadata", "rotate=0"] cmd ∧
      List.IsInfix ["-map_metadata", "-1"] cmd := by
  refine ⟨rfl, ?_⟩
  intro cmd hmem
  rw [ffmpeg_subclip_rotate, List.mem_singleton] at hmem
  subst hmem
  cases hvf : vf_filter r with
  | none =>
    rw [ffmpeg_cmd, hvf]
    refine ⟨⟨["ffmpeg", "-y", "-i", i], _, rfl⟩, ?_, fun _ => rfl,
      ⟨["ffmpeg", "-y", "-i", i, "-ss", pyStr s, "-to", pyStr e,
        "-c:v", "libx264", "-c:a", "aac"], _, rfl⟩,
      ⟨["ffmpeg", "-y", "-i", i, "-ss", pyStr s, "-to", pyStr e,
        "-c:v", "libx264", "-c:a", "aac", "-metadata", "rotate=0"], _, rfl⟩⟩
    intro f hf
    exact absurd hf (by simp)
  | some f =>
    rw [ffmpeg_cmd, hvf]
    refine ⟨⟨["ffmpeg", "-y", "-i", i], _, rfl⟩, ?_, ?_,
      ⟨["ffmpeg", "-y", "-i", i, "-ss", pyStr s, "-to", pyStr e, "-vf", f,
        "-c:v", "libx264", "-c:a", "aac"], _, rfl⟩,
      ⟨["ffmpeg", "-y", "-i", i, "-ss", pyStr s, "-to", pyStr e, "-vf", f,
        "-c:v", "libx264", "-c:a", "aac", "-metadata", "rotate=0"], _, rfl⟩⟩
    · intro g hg
      cases hg
      exact ⟨["ffmpeg", "-y", "-i", i, "-ss", pyStr s, "-to", pyStr e], _, rfl⟩
    · intro hnone
      exact absurd hnone (by simp)

/-- Closed witness for `c2_single_encode_command` at a concrete invocation
with rotation 90. -/
theorem c2_single_encode_command_witness :
    List.IsInfix ["-ss", pyStr 2, "-to", pyStr 12]
      (ffmpeg_cmd "in.mp4" "out.mp4" 2 12 90) ∧
    List.IsInfix ["-vf", "transpose=2"] (ffmpeg_cmd "in.mp4" "out.mp4" 2 12 90) ∧
    List.IsInfix ["-metadata", "rotate=0"] (ffmpeg_cmd "in.mp4" "out.mp4" 2 12 90) ∧
    List.IsInfix ["-map_metadata", "-1"] (ffmpeg_cmd "in.mp4" "out.mp4" 2 12 90) := by
  have h := (c2_single_encode_command "in.mp4" "out.mp4" 2 12 90).2
    (ffmpeg_cmd "in.mp4" "out.mp4" 2 12 90) (List.mem_singleton.mpr rfl)
  exact ⟨h.1, h.2.1 "transpose=2" rfl, h.2.2.2.1, h.2.2.2.2⟩

/-! ## Metadata prober (`get_video_metadata`, src/app.py lines 46-91) -/

/-- One entry of the `streams` array of the parsed ffprobe JSON; `none`
fields stand for absent keys (Python `stream.get(key, default)`). -/
structure StreamInfo where
  codec_type : String
  width : Option ℕ
  height : Option ℕ
deriving DecidableEq

/-- The Apple device tags read from `format.tags`. -/
structure FormatTags where
  apple_make : Option String
  apple_model : Option String
deriving DecidableEq

/-- The `format` object of the parsed ffprobe JSON; `none` fields stand
for absent keys. -/
structure FormatInfo where
  size : Option ℚ
  duration : Option ℚ
  tags : Option FormatTags
deriving DecidableEq

/-- The parsed ffprobe JSON payload. -/
structure ProbeData where
  format : Option FormatInfo
  streams : List StreamInfo
deriving DecidableEq

/-- The dictionary `get_video_metadata` returns on its full path. -/
structure MetaDict where
  device_name : String
  width : ℕ
  height : ℕ
  filesize_mb : ℚ
  duration : ℚ
deriving DecidableEq

/-- The only way the prober can fail: `json.loads` raising on output that
is not valid JSON (src/app.py line 64); the exception is uncaught. -/
inductive ProbeFailure
  | jsonDecodeError
deriving DecidableEq

/-- The `ffprobe` command list built in `get_video_metadata`
(src/app.py lines 54-59). -/
def probe_cmd (video_path : String) : List String :=
  ["ffprobe", "-v", "quiet", "-print_format", "json",
   "-show_format", "-show_streams", video_path]

/-- Embedding of `get_video_metadata` (src/app.py lines 46-91). The
external process result is given by its exit code and its parsed stdout
(`none` = stdout is not valid JSON). A non-zero exit code returns the
empty dict `{}` (modelled as `.ok none`); unparsable output raises
(`.error`); otherwise the populated dict is returned, the first stream
with `codec_type = "video"` supplying width/height (0 if there is none). -/
def get_video_metadata (returncode : ℤ) (parsed : Option ProbeData) :
    Except ProbeFailure (Option MetaDict) :=
  if returncode ≠ 0 then .ok none
  else
    match parsed with
    | none => .error .jsonDecodeError
    | some data =>
      let fmt := data.format
      let tags := fmt.bind FormatInfo.tags
      let size_bytes := (fmt.bind FormatInfo.size).getD 0
      let duration_sec := (fmt.bind FormatInfo.duration).getD 0
      let camera_make := (tags.bind FormatTags.apple_make).getD "Unknown"
      let camera_model := (tags.bind FormatTags.apple_model).getD ""
      let device_name := (camera_make ++ " " ++ camera_model).trim
      let vstream := data.streams.find? (fun st => st.codec_type == "video")
      .ok (some
        { device_name := device_name
          width := (vstream.bind StreamInfo.width).getD 0
          height := (vstream.bind StreamInfo.height).getD 0
          filesize_mb := size_bytes / (1024 * 1024)
          duration := duration_sec })

/-! ## Downscale stage and orchestrator (`main`, src/app.py lines 94-243) -/

/-- The resize arithmetic of src/app.py line 203,
`int(subclip_fixed.h * 240 / subclip_fixed.w)`, with the literal target
width abstracted as `maxW` (the program instantiates it with 240). -/
def new_h (h maxW w : ℕ) : ℕ := h * maxW / w

/-- Embedding of the downscale step (src/app.py lines 202-204): clips
wider than 240 are resized to width 240 with proportional height, all
others pass through unchanged. Returns the output (width, height). -/
def downscale (w h : ℕ) : ℕ × ℕ :=
  if 240 < w then (240, new_h h 240 w) else (w, h)

/-- The transient files `main` creates. -/
inductive FileId
  | inputFile
  | fixedMp4
  | gifFile
deriving DecidableEq

/-- Observable events of one run of `main`: external process launches,
user-facing error messages, the GIF re-encode (with its dimensions and
fixed parameters), exposing the GIF to the caller, file removals, and an
uncaught Python exception (`raised`) which truncates the run. -/
inductive Event
  | launchProbe (cmd : List String)
  | launchEncode (cmd : List String)
  | showError (msg : String)
  | writeGif (w h fps colors : ℕ) (program opt : String)
  | exposeGif
  | removeFile (f : FileId)
  | raised
deriving DecidableEq

/-- The source-level inputs one run of `main` depends on: the uploaded
size, the temp-file paths, the moviepy rotation attribute (`none` when the
clip object has no `rotation` attribute), the ffprobe outcome, the two
slider values, whether "Generate GIF" was pressed, whether the ffmpeg
encode subprocess exits 0, and the actual dimensions of the normalized
intermediate clip. -/
structure MainInput where
  size : ℕ
  inputPath : String
  fixedPath : String
  rotationTag : Option ℤ
  probeReturncode : ℤ
  probeParsed : Option ProbeData
  start : ℚ
  endT : ℚ
  generatePressed : Bool
  encodeOk : Bool
  fixedW : ℕ
  fixedH : ℕ

/-- The rotation `main` uses: `getattr(clip, 'rotation', 0)`
(src/app.py line 132). -/
def usedRotation (inp : MainInput) : ℤ := inp.rotationTag.getD 0

/-- Embedding of `main` from the trim validation on (src/app.py lines
169-239): the two validation checks return early with an error; otherwise,
if "Generate GIF" was pressed, the single encode subprocess is launched
(`check=True`, so a non-zero exit raises and nothing after it runs), the
clip is downscaled, the GIF is written (fps=5, program="ffmpeg", opt="nq",
colors=32), exposed, and the gif, fixed and input temp files are removed. -/
def trimExportEvents (inp : MainInput) : List Event :=
  if inp.endT < inp.start then
    [.showError "End time must be >= start time."]
  else if 15 < inp.endT - inp.start then
    [.showError "Please select a duration of 15s or less."]
  else if inp.generatePressed then
    .launchEncode
        (ffmpeg_cmd inp.inputPath inp.fixedPath inp.start inp.endT
          (usedRotation inp)) ::
      (if inp.encodeOk then
        [.writeGif (downscale inp.fixedW inp.fixedH).1
            (downscale inp.fixedW inp.fixedH).2 5 32 "ffmpeg" "nq",
         .exposeGif, .removeFile .gifFile, .removeFile .fixedMp4,
         .removeFile .inputFile]
      else [.raised])
  else [.removeFile .inputFile]

/-- Embedding of `main` (src/app.py lines 94-243) as its event trace: the
100 MiB size ceiling is checked before anything else; then the ffprobe
subprocess runs; if `get_video_metadata` raises the run aborts; otherwise
the trim/export part follows. -/
def mainTrace (inp : MainInput) : List Event :=
  if 100 * 1024 * 1024 < inp.size then
    [.showError "File size exceeds 100MB."]
  else
    .launchProbe (probe_cmd inp.inputPath) ::
      (match get_video_metadata inp.probeReturncode inp.probeParsed with
       | .error _ => [.raised]
       | .ok _ => trimExportEvents inp)

/-! ## Concrete session inputs used by witnesses and counterexamples -/

/-- A concrete session: 50 MiB upload, rotation tag 90, a well-formed
probe result with one video stream, trim [2, 12], GIF generation pressed,
encode succeeding, normalized clip of 1920×1080. -/
def inputOk : MainInput :=
  { size := 50 * 1024 * 1024
    inputPath := "input.mp4"
    fixedPath := "fixed.mp4"
    rotationTag := some 90
    probeReturncode := 0
    probeParsed := some
      { format := some
          { size := some 52428800
            duration := some 20
            tags := some { apple_make := some "Apple", apple_model := some "iPhone" } }
        streams := [{ codec_type := "video", width := some 1080, height := some 1920 }] }
    start := 2
    endT := 12
    generatePressed := true
    encodeOk := true
    fixedW := 1920
    fixedH := 1080 }

/-- C3: In the downscale stage, a clip with width > 240 (the stage's
maxWidth) is resized to (240, floor(height · 240 / width)) — with the new
height equal to the rational floor of the aspect-ratio formula — and a
clip with width ≤ 240 passes through with unchanged dimensions. -/
theorem c3_downscale_dimensions (w h : ℕ) :
    (240 < w → downscale w h = (240, ⌊((h : ℚ) * 240) / (w : ℚ)⌋₊)) ∧
    (w ≤ 240 → downscale w h = (w, h)) := by
  constructor
  · intro hw
    rw [downscale, if_pos hw, new_h]
    have hcast : ((h : ℚ) * 240) = ((h * 240 : ℕ) : ℚ) := by push_cast; ring
    rw [hcast, Nat.floor_div_eq_div]
  · intro hw
    rw [downscale, if_neg (by omega)]

/-- Closed witness for `c3_downscale_dimensions`: a 640×360 clip is
resized to 240×135, and a 240-wide clip passes through. -/
theorem c3_downscale_dimensions_witness :
    downscale 640 360 = (240, ⌊((360 : ℚ) * 240) / (640 : ℚ)⌋₊) ∧
    downscale 240 100 = (240, 100) :=
  ⟨(c3_downscale_dimensions 640 360).1 (by norm_num),
   (c3_downscale_dimensions 240 100).2 (by norm_num)⟩

/-- C4: Trim validation accepts exactly when end ≥ start and
end − start ≤ 15; a violating selection produces only the validation
error message — in particular no encode process launch and no GIF event —
while an accepted selection produces no validation error. -/
theorem c4_trim_validation (inp : MainInput) :
    (inp.endT < inp.start →
      trimExportEvents inp = [Event.showError "End time must be >= start time."]) ∧
    (inp.start ≤ inp.endT → 15 < inp.endT - inp.start →
      trimExportEvents inp = [Event.showError "Please select a duration of 15s or less."]) ∧
    (inp.start ≤ inp.endT → inp.endT - inp.start ≤ 15 →
      ∀ msg, Event.showError msg ∉ trimExportEvents inp) := by
  refine ⟨?_, ?_, ?_⟩
  · intro hlt
    rw [trimExportEvents, if_pos hlt]
  · intro hle hgt
    rw [trimExportEvents, if_neg (not_lt.mpr hle), if_pos hgt]
  · intro hle hle15 msg
    rw [trimExportEvents, if_neg (not_lt.mpr hle), if_neg (not_lt.mpr hle15)]
    by_cases hg : inp.generatePressed = true
    · by_cases he : inp.encodeOk = true
      · simp [hg, he]
      · simp [hg, he]
    · simp [hg]

/-- Closed witness for `c4_trim_validation`: start=5, end=3 is rejected
(end < start); start=0, end=16 is rejected (range exceeds 15 s); start=2,
end=12 is accepted (no validation error is shown). -/
theorem c4_trim_validation_witness :
    trimExportEvents { inputOk with start := 5, endT := 3 } =
      [Event.showError "End time must be >= start time."] ∧
    trimExportEvents { inputOk with start := 0, endT := 16 } =
      [Event.showError "Please select a duration of 15s or less."] ∧
    Event.showError "End time must be >= start time." ∉
      trimExportEvents { inputOk with start := 2, endT := 12 } :=
  ⟨(c4_trim_validation _).1 (by norm_num),
   (c4_trim_validation _).2.1 (by norm_num) (by norm_num),
   (c4_trim_validation _).2.2 (by norm_num) (by norm_num) _⟩

/-- C7: An upload strictly larger than 100 MiB is rejected with the
user-facing size message and its run launches no external probe or encode
process at all; an upload of at most 100 MiB passes the check and the
probe is launched. -/
theorem c7_size_ceiling (inp : MainInput) :
    (100 * 1024 * 1024 < inp.size →
      mainTrace inp = [Event.showError "File size exceeds 100MB."] ∧
      (∀ cmd, Event.launchProbe cmd ∉ mainTrace inp) ∧
      (∀ cmd, Event.launchEncode cmd ∉ mainTrace inp)) ∧
    (inp.size ≤ 100 * 1024 * 1024 →
      Event.launchProbe (probe_cmd inp.inputPath) ∈ mainTrace inp) := by
  constructor
  · intro hbig
    have htr : mainTrace inp = [Event.showError "File size exceeds 100MB."] := by
      rw [mainTrace, if_pos hbig]
    exact ⟨htr, fun cmd => by rw [htr]; simp, fun cmd => by rw [htr]; simp⟩
  · intro hsmall
    rw [mainTrace, if_neg (not_lt.mpr hsmall)]
    exact List.mem_cons_self _ _

/-- Closed witness for `c7_size_ceiling`: a 101 MiB upload is rejected
with no probe launch; the 50 MiB session `inputOk` reaches the probe. -/
theorem c7_size_ceiling_witness :
    mainTrace { inputOk with size := 101 * 1024 * 1024 } =
      [Event.showError "File size exceeds 100MB."] ∧
    Event.launchProbe (probe_cmd "input.mp4") ∉
      mainTrace { inputOk with size := 101 * 1024 * 1024 } ∧
    Event.launchProbe (probe_cmd "input.mp4") ∈ mainTrace inputOk := by
  have hbig := (c7_size_ceiling { inputOk with size := 101 * 1024 * 1024 }).1
    (by norm_num)
  exact ⟨hbig.1, hbig.2.1 (probe_cmd "input.mp4"),
    (c7_size_ceiling inputOk).2 (by norm_num [inputOk])⟩

/-- C8: When the input carries no rotation tag the pipeline uses rotation
0, and any rotation value outside the three non-trivial canonical ones
resolves deterministically to the identity transform (no video filter)
rather than failing. -/
theorem c8_rotation_default_and_fallback (inp : MainInput) (r : ℤ) :
    (inp.rotationTag = none → usedRotation inp = 0) ∧
    (r ≠ 0 → r ≠ 90 → r ≠ 180 → r ≠ 270 →
      vf_filter r = none ∧ resolvedTransform r = some Transform.identity) := by
  constructor
  · intro hnone
    rw [usedRotation, hnone]
    rfl
  · intro _ h90 h180 h270
    have hvf : vf_filter r = none := by
      rw [vf_filter, if_neg h90, if_neg h180, if_neg h270]
    exact ⟨hvf, by rw [resolvedTransform, hvf]⟩

/-- Closed witness for `c8_rotation_default_and_fallback`: a session with
no rotation attribute uses rotation 0, and the non-canonical value 45
falls back to the identity transform. -/
theorem c8_rotation_default_and_fallback_witness :
    usedRotation { inputOk with rotationTag := none } = 0 ∧
    vf_filter 45 = none ∧
    resolvedTransform 45 = some Transform.identity := by
  have h := c8_rotation_default_and_fallback { inputOk with rotationTag := none } 45
  have h2 := h.2 (by norm_num) (by norm_num) (by norm_num) (by norm_num)
  exact ⟨h.1 rfl, h2.1, h2.2⟩

/-- C9: For positive width, height, maxWidth with width > maxWidth, the
integer new height of the resize formula differs from the exact rational
height · maxWidth / width by strictly less than one. -/
theorem c9_aspect_ratio_rounding (w h maxW : ℕ) (hw : 0 < w) (hh : 0 < h)
    (hm : 0 < maxW) (_hlt : maxW < w) :
    |((new_h h maxW w : ℕ) : ℚ) - ((h : ℚ) * (maxW : ℚ)) / (w : ℚ)| < 1 := by
  have hx : (0 : ℚ) ≤ ((h : ℚ) * (maxW : ℚ)) / (w : ℚ) := by positivity
  have hcast : ((h : ℚ) * (maxW : ℚ)) = ((h * maxW : ℕ) : ℚ) := by push_cast; ring
  have hfloor : ((new_h h maxW w : ℕ) : ℚ) =
      ((⌊((h : ℚ) * (maxW : ℚ)) / (w : ℚ)⌋₊ : ℕ) : ℚ) := by
    rw [new_h, hcast, Nat.floor_div_eq_div]
  rw [hfloor, abs_sub_lt_iff]
  constructor
  · have hle := Nat.floor_le hx
    linarith
  · have hlt1 := Nat.lt_floor_add_one (((h : ℚ) * (maxW : ℚ)) / (w : ℚ))
    linarith

/-- Closed witness for `c9_aspect_ratio_rounding` at width 640, height
360, maxWidth 240. -/
theorem c9_aspect_ratio_rounding_witness :
    |((new_h 360 240 640 : ℕ) : ℚ) - ((360 : ℚ) * (240 : ℚ)) / (640 : ℚ)| < 1 :=
  c9_aspect_ratio_rounding 640 360 240 (by norm_num) (by norm_num)
    (by norm_num) (by norm_num)

/-- C5 counterexample: the prober does not fail on a non-zero exit code —
it returns the empty dict — and it does not fail when the parsed metadata
has no video stream — it returns a populated dict with width = height = 0. -/
theorem c5_probe_returns_instead_of_failing :
    get_video_metadata 1 none = Except.ok none ∧
    (get_video_metadata 0 (some { format := none, streams := [] })).isOk = true := by
  exact ⟨rfl, rfl⟩

/-- C5 amended: the prober raises only when the inspection process exits
zero but its output is unparsable; on a non-zero exit it returns the empty
dict, and on parsable output with no video stream it returns a descriptor
whose width and height are 0. -/
theorem c5_amended_probe_behavior (rc : ℤ) (parsed : Option ProbeData) :
    (rc ≠ 0 → get_video_metadata rc parsed = Except.ok none) ∧
    (rc = 0 → parsed = none →
      get_video_metadata rc parsed = Except.error ProbeFailure.jsonDecodeError) ∧
    (∀ d, rc = 0 → parsed = some d →
      d.streams.find? (fun st => st.codec_type == "video") = none →
      ∃ m, get_video_metadata rc parsed = Except.ok (some m) ∧
        m.width = 0 ∧ m.height = 0) := by
  refine ⟨?_, ?_, ?_⟩
  · intro h
    rw [get_video_metadata.eq_def, if_pos h]
  · intro h0 hp
    subst h0
    subst hp
    rfl
  · intro d h0 hp hfind
    subst h0
    subst hp
    refine ⟨_, rfl, ?_, ?_⟩
    · show ((d.streams.find? (fun st => st.codec_type == "video")).bind
        StreamInfo.width).getD 0 = 0
      rw [hfind]
      rfl
    · show ((d.streams.find? (fun st => st.codec_type == "video")).bind
        StreamInfo.height).getD 0 = 0
      rw [hfind]
      rfl

/-- Closed witness for `c5_amended_probe_behavior`: exit code 2 yields the
empty dict and a zero exit with unparsable output raises. -/
theorem c5_amended_probe_behavior_witness :
    get_video_metadata 2 none = Except.ok none ∧
    get_video_metadata 0 none = Except.error ProbeFailure.jsonDecodeError :=
  ⟨(c5_amended_probe_behavior 2 none).1 (by norm_num),
   (c5_amended_probe_behavior 0 none).2.1 rfl rfl⟩

/-- The session `inputOk` with the encode subprocess exiting non-zero. -/
def inputEncodeFail : MainInput := { inputOk with encodeOk := false }

/-- C6 counterexample: when the encoder exits non-zero the run does fail
(uncaught exception) and exposes nothing, but contrary to the claim the
partially written output file is never removed — nor is the temp input. -/
theorem c6_no_cleanup_counterexample :
    Event.raised ∈ mainTrace inputEncodeFail ∧
    Event.removeFile FileId.fixedMp4 ∉ mainTrace inputEncodeFail ∧
    Event.removeFile FileId.inputFile ∉ mainTrace inputEncodeFail ∧
    Event.exposeGif ∉ mainTrace inputEncodeFail := by
  have hex : ∃ m, get_video_metadata inputEncodeFail.probeReturncode
      inputEncodeFail.probeParsed = Except.ok m := ⟨_, rfl⟩
  obtain ⟨m, hm⟩ := hex
  have htrace : mainTrace inputEncodeFail =
      [Event.launchProbe (probe_cmd "input.mp4"),
       Event.launchEncode (ffmpeg_cmd "input.mp4" "fixed.mp4" 2 12 90),
       Event.raised] := by
    rw [mainTrace, if_neg (by norm_num [inputEncodeFail, inputOk]), hm,
        trimExportEvents, if_neg (by norm_num [inputEncodeFail, inputOk]),
        if_neg (by norm_num [inputEncodeFail, inputOk]),
        if_pos (show inputEncodeFail.generatePressed = true from rfl),
        if_neg (by simp [show inputEncodeFail.encodeOk = false from rfl])]
    rfl
  rw [htrace]
  refine ⟨by simp, by simp, by simp, by simp⟩

/-- C6 amended: if the encoder exits non-zero during trim-transcode, the
operation fails (the `check=True` exception propagates uncaught) and no
artifact is exposed to the caller, but no file is removed either: the
partially written output and the temp input are left behind, because the
cleanup code runs only on the success path. -/
theorem c6_amended_failure_behavior (inp : MainInput)
    (hsize : inp.size ≤ 100 * 1024 * 1024)
    (hprobe : ∃ m, get_video_metadata inp.probeReturncode inp.probeParsed =
      Except.ok m)
    (h1 : inp.start ≤ inp.endT) (h2 : inp.endT - inp.start ≤ 15)
    (hg : inp.generatePressed = true) (he : inp.encodeOk = false) :
    mainTrace inp =
      [Event.launchProbe (probe_cmd inp.inputPath),
       Event.launchEncode (ffmpeg_cmd inp.inputPath inp.fixedPath inp.start
         inp.endT (usedRotation inp)),
       Event.raised] ∧
    Event.exposeGif ∉ mainTrace inp ∧
    (∀ f, Event.removeFile f ∉ mainTrace inp) := by
  obtain ⟨m, hm⟩ := hprobe
  have htrace : mainTrace inp =
      [Event.launchProbe (probe_cmd inp.inputPath),
       Event.launchEncode (ffmpeg_cmd inp.inputPath inp.fixedPath inp.start
         inp.endT (usedRotation inp)),
       Event.raised] := by
    rw [mainTrace, if_neg (not_lt.mpr hsize), hm, trimExportEvents,
        if_neg (not_lt.mpr h1), if_neg (not_lt.mpr h2), if_pos hg,
        if_neg (by simp [he])]
  refine ⟨htrace, ?_, ?_⟩
  · rw [htrace]
    simp
  · intro f
    rw [htrace]
    simp

/-- Closed witness for `c6_amended_failure_behavior` at the concrete
failing session `inputEncodeFail`. -/
theorem c6_amended_failure_behavior_witness :
    mainTrace inputEncodeFail =
      [Event.launchProbe (probe_cmd "input.mp4"),
       Event.launchEncode (ffmpeg_cmd "input.mp4" "fixed.mp4" 2 12 90),
       Event.raised] ∧
    Event.exposeGif ∉ mainTrace inputEncodeFail ∧
    Event.removeFile FileId.fixedMp4 ∉ mainTrace inputEncodeFail := by
  have h := c6_amended_failure_behavior inputEncodeFail
    (by norm_num [inputEncodeFail, inputOk]) ⟨_, rfl⟩
    (by norm_num [inputEncodeFail, inputOk])
    (by norm_num [inputEncodeFail, inputOk]) rfl rfl
  exact ⟨h.1, h.2.1, h.2.2 FileId.fixedMp4⟩

/-- The downscale stage never emits a width above 240. -/
theorem downscale_width_le_240 (w h : ℕ) : (downscale w h).1 ≤ 240 := by
  rw [downscale]
  split
  · exact Nat.le_refl 240
  · next hw => exact Nat.le_of_not_lt hw

/-- C10: The export configuration is a fixed constant of the program —
every GIF write in any run uses fps 5, 32 colors, the ffmpeg program, the
"nq" option, and a width capped at 240 given by the downscale stage; no
input field selects these. In particular the §8 scenario maxWidth = 640
is unreachable: a 640-wide clip is resized to 240×135, not passed
through. -/
theorem c10_fixed_export_config :
    (∀ (inp : MainInput) (w h fps colors : ℕ) (prog opt : String),
      Event.writeGif w h fps colors prog opt ∈ mainTrace inp →
      fps = 5 ∧ colors = 32 ∧ prog = "ffmpeg" ∧ opt = "nq" ∧
      w ≤ 240 ∧ (w, h) = downscale inp.fixedW inp.fixedH) ∧
    downscale 640 360 = (240, 135) ∧ downscale 640 360 ≠ (640, 360) := by
  refine ⟨?_, by decide, by decide⟩
  intro inp w h fps colors prog opt hmem
  rw [mainTrace] at hmem
  split at hmem
  · simp at hmem
  · simp only [List.mem_cons] at hmem
    rcases hmem with heq | hmem
    · simp at heq
    split at hmem
    · simp at hmem
    rw [trimExportEvents] at hmem
    split at hmem
    · simp at hmem
    split at hmem
    · simp at hmem
    split at hmem
    · simp only [List.mem_cons] at hmem
      rcases hmem with heq | hmem
      · simp at heq
      split at hmem
      · simp only [List.mem_cons, List.not_mem_nil, or_false] at hmem
        rcases hmem with heq | heq | heq | heq | heq
        · rw [Event.writeGif.injEq] at heq
          obtain ⟨hw, hh, hfps, hcolors, hprog, hopt⟩ := heq
          subst hw
          subst hh
          subst hfps
          subst hcolors
          subst hprog
          subst hopt
          exact ⟨rfl, rfl, rfl, rfl, downscale_width_le_240 _ _, rfl⟩
        · simp at heq
        · simp at heq
        · simp at heq
        · simp at heq
      · simp at hmem
    · simp at hmem

/-- Closed witness for `c10_fixed_export_config`: the GIF write of the
successful session `inputOk` (normalized clip 1920×1080) uses exactly the
fixed configuration and the 240×135 downscaled dimensions. -/
theorem c10_fixed_export_config_witness :
    (5 = 5 ∧ 32 = 32 ∧ "ffmpeg" = "ffmpeg" ∧ "nq" = "nq" ∧ 240 ≤ 240 ∧
      ((240 : ℕ), (135 : ℕ)) = downscale 1920 1080) := by
  have hex : ∃ m, get_video_metadata inputOk.probeReturncode
      inputOk.probeParsed = Except.ok m := ⟨_, rfl⟩
  obtain ⟨m, hm⟩ := hex
  have htrace : mainTrace inputOk =
      [Event.launchProbe (probe_cmd "input.mp4"),
       Event.launchEncode (ffmpeg_cmd "input.mp4" "fixed.mp4" 2 12 90),
       Event.writeGif 240 135 5 32 "ffmpeg" "nq",
       Event.exposeGif, Event.removeFile FileId.gifFile,
       Event.removeFile FileId.fixedMp4, Event.removeFile FileId.inputFile] := by
    rw [mainTrace, if_neg (by norm_num [inputOk]), hm,
        trimExportEvents, if_neg (by norm_num [inputOk]),
        if_neg (by norm_num [inputOk]),
        if_pos (show inputOk.generatePressed = true from rfl),
        if_pos (show inputOk.encodeOk = true from rfl)]
    rfl
  exact c10_fixed_export_config.1 inputOk 240 135 5 32 "ffmpeg" "nq"
    (by rw [htrace]; simp)

end Video2Gif
